import Mathlib

/-
Verification of the Flask hello-world service (src/app/app.py).

The application registers three routes on a Flask app object:
  GET /        -> jsonify(message="Hello from Flask on Kubernetes (Minikube)!")
  GET /health  -> jsonify(status="healthy") with anti-cache headers, 200
  GET /ready   -> jsonify(status="ready")   with anti-cache headers, 200

Flask automatically adds HEAD and OPTIONS to every GET route; requests to a
registered path with any other method receive the framework's default
405 response, and requests to an unregistered path receive 404.
We embed the handlers and the framework dispatch shallowly: a JSON object
body is a list of key/value pairs, a response carries a status, a body and
a header list, and dispatch consults the url map built at startup.
-/

namespace FlaskApp

/-- HTTP methods relevant to the service. -/
inductive Method where
  | GET
  | HEAD
  | OPTIONS
  | POST
  | PUT
  | DELETE
  | PATCH
deriving DecidableEq, Repr

/-- An HTTP response: status code, JSON object body (key/value pairs; empty
for framework default error pages and stripped HEAD bodies), headers. -/
structure Response where
  status : Nat
  body : List (String × String)
  headers : List (String × String)
deriving DecidableEq, Repr

/-- A request, as far as the handlers observe it: method and path. -/
structure Request where
  method : Method
  path : String
deriving DecidableEq, Repr

/-- Model of Flask `jsonify`: a 200 response with the given JSON object body
and Content-Type application/json. -/
def jsonify (kv : List (String × String)) : Response :=
  { status := 200, body := kv, headers := [("Content-Type", "application/json")] }

/-- Model of `response.headers[name] = value`: replace any existing header of
that name, then add the new value. -/
def setHeader (r : Response) (name value : String) : Response :=
  { r with headers := r.headers.filter (fun h => h.1 ≠ name) ++ [(name, value)] }

/-- Look up a header value on a response. -/
def headerValue (r : Response) (name : String) : Option String :=
  (r.headers.find? (fun h => h.1 == name)).map (fun h => h.2)

/-- Split a list of characters at each comma. -/
def splitCommaAux : List Char → List Char → List (List Char)
  | [], acc => [acc.reverse]
  | c :: cs, acc =>
    if c = ',' then acc.reverse :: splitCommaAux cs []
    else splitCommaAux cs (c :: acc)

/-- Drop leading spaces from a list of characters. -/
def dropSpaces : List Char → List Char
  | ' ' :: cs => dropSpaces cs
  | cs => cs

/-- Split a header value into its comma-separated directives, ignoring the
space after each comma. -/
def directives (s : String) : List String :=
  (splitCommaAux s.data []).map (fun l => String.mk (dropSpaces l))

/-- Handler for `GET /` (app.py, `hello`). -/
def hello : Response :=
  jsonify [("message", "Hello from Flask on Kubernetes (Minikube)!")]

/-- Handler for `GET /health` (app.py, `health`): jsonify(status="healthy"),
then the three anti-cache header assignments, returned with status 200. -/
def health : Response :=
  let response := jsonify [("status", "healthy")]
  let response := setHeader response "Cache-Control" "no-cache, no-store, must-revalidate"
  let response := setHeader response "Pragma" "no-cache"
  let response := setHeader response "Expires" "0"
  { response with status := 200 }

/-- Handler for `GET /ready` (app.py, `ready`): jsonify(status="ready"),
then the same three anti-cache header assignments, returned with status 200. -/
def ready : Response :=
  let response := jsonify [("status", "ready")]
  let response := setHeader response "Cache-Control" "no-cache, no-store, must-revalidate"
  let response := setHeader response "Pragma" "no-cache"
  let response := setHeader response "Expires" "0"
  { response with status := 200 }

/-- Flask registers HEAD and OPTIONS automatically alongside each GET route. -/
def routeMethods : List Method :=
  [Method.GET, Method.HEAD, Method.OPTIONS]

/-- A url-map rule's path side: the three decorator routes match their path
exactly (strict slashes, no converters); the static route that
`Flask(__name__)` registers by default matches `/static/<path:filename>`,
i.e. any path that extends `/static/` by a nonempty filename. -/
inductive RoutePattern where
  | exact (p : String)
  | staticFiles
deriving DecidableEq, Repr

/-- Strip a leading character sequence: `stripLead pre cs` returns the
remainder of `cs` after `pre`, or none when `pre` does not lead `cs`. -/
def stripLead : List Char → List Char → Option (List Char)
  | [], rest => some rest
  | _ :: _, [] => none
  | c :: cs, d :: ds => if c = d then stripLead cs ds else none

/-- Whether a request path matches a rule's pattern. -/
def matchesPattern : RoutePattern → String → Bool
  | RoutePattern.exact q, p => q == p
  | RoutePattern.staticFiles, p =>
    match stripLead "/static/".data p.data with
    | some rest => !rest.isEmpty
    | none => false

/-- A url-map rule: a path pattern and its allowed methods. -/
structure Rule where
  pattern : RoutePattern
  methods : List Method
deriving DecidableEq, Repr

/-- The static-files rule `Flask(__name__)` adds at app creation (app.py:19):
endpoint `static`, path `/static/<path:filename>`, methods GET (plus the
automatic HEAD and OPTIONS). -/
def staticRule : Rule :=
  { pattern := RoutePattern.staticFiles, methods := routeMethods }

/-- The url map right after `app = Flask(__name__)`: only the static rule. -/
def appBase : List Rule := [staticRule]

/-- Registering a GET route on the app (the `@app.route` decorator). -/
def addUrlRule (rules : List Rule) (path : String) : List Rule :=
  rules ++ [{ pattern := RoutePattern.exact path, methods := routeMethods }]

/-- The url map built at import time: the default static rule, then the
three `@app.route` decorators. -/
def urlMap : List Rule :=
  addUrlRule (addUrlRule (addUrlRule appBase "/") "/health") "/ready"

/-- Look up the first rule matching a request path. -/
def findRule (rules : List Rule) (p : String) : Option Rule :=
  rules.find? (fun r => matchesPattern r.pattern p)

/-- The Allow header value Flask derives for these routes. -/
def allowValue : String := "GET, HEAD, OPTIONS"

/-- Framework default 404 page (HTML body, modelled as empty JSON object). -/
def notFound : Response :=
  { status := 404, body := [], headers := [("Content-Type", "text/html")] }

/-- Framework default 405 page, with the Allow header. -/
def methodNotAllowed : Response :=
  { status := 405, body := [],
    headers := [("Content-Type", "text/html"), ("Allow", allowValue)] }

/-- Framework default OPTIONS response: 200 with an Allow header. -/
def defaultOptions : Response :=
  { status := 200, body := [], headers := [("Allow", allowValue)] }

/-- HEAD is dispatched to the GET handler and the body is stripped. -/
def stripBody (r : Response) : Response :=
  { r with body := [] }

/-- The view function attached to each rule. The repository has no
`app/static` directory, so `send_static_file` raises NotFound for every
filename and the static view answers with the framework 404. -/
def viewFunc (pat : RoutePattern) : Response :=
  match pat with
  | RoutePattern.staticFiles => notFound
  | RoutePattern.exact q =>
    if q == "/" then hello
    else if q == "/health" then health
    else ready

/-- Framework dispatch over a url map: a path matching no rule gives 404; a
matched rule with a method outside it gives 405; GET runs the rule's view
function, HEAD runs it with the body stripped, OPTIONS gets the default
Allow response. -/
def dispatch (rules : List Rule) (req : Request) : Response :=
  match findRule rules req.path with
  | none => notFound
  | some rule =>
    if req.method ∈ rule.methods then
      match req.method with
      | Method.GET => viewFunc rule.pattern
      | Method.HEAD => stripBody (viewFunc rule.pattern)
      | Method.OPTIONS => defaultOptions
      | _ => methodNotAllowed
    else methodNotAllowed

/-- Handling one request against the application's url map. -/
def handle (req : Request) : Response :=
  dispatch urlMap req

/-- The application's state observable across requests: the url map built at
startup. Nothing else in app.py is module-level mutable state. -/
abbrev AppState := List Rule

/-- The state after the three route registrations complete. -/
def appInit : AppState := urlMap

/-- Handling a request with explicit state threading: the handlers read the
url map and touch nothing else, so the state passes through unchanged. -/
def handleSt (st : AppState) (req : Request) : Response × AppState :=
  (dispatch st req, st)

/-- Run a sequence of requests, threading the application state. -/
def runSeq (st : AppState) : List Request → List Response × AppState
  | [] => ([], st)
  | q :: qs =>
    let step := handleSt st q
    let rest := runSeq step.2 qs
    (step.1 :: rest.1, rest.2)

/-- C1: GET /health returns status 200 with JSON body status=healthy, with
headers Cache-Control: no-cache, no-store, must-revalidate, Pragma: no-cache
and Expires: 0, the Cache-Control value containing exactly those three
directives. -/
theorem c1_health_get_contract :
    (handle { method := Method.GET, path := "/health" }).status = 200 ∧
    (handle { method := Method.GET, path := "/health" }).body = [("status", "healthy")] ∧
    headerValue (handle { method := Method.GET, path := "/health" }) "Cache-Control" =
      some "no-cache, no-store, must-revalidate" ∧
    headerValue (handle { method := Method.GET, path := "/health" }) "Pragma" =
      some "no-cache" ∧
    headerValue (handle { method := Method.GET, path := "/health" }) "Expires" =
      some "0" ∧
    directives "no-cache, no-store, must-revalidate" =
      ["no-cache", "no-store", "must-revalidate"] := by
  refine ⟨rfl, rfl, rfl, rfl, rfl, by decide⟩

/-- C2: GET /ready returns status 200 with JSON body status=ready and the
same anti-cache headers as /health. -/
theorem c2_ready_get_contract :
    (handle { method := Method.GET, path := "/ready" }).status = 200 ∧
    (handle { method := Method.GET, path := "/ready" }).body = [("status", "ready")] ∧
    headerValue (handle { method := Method.GET, path := "/ready" }) "Cache-Control" =
      some "no-cache, no-store, must-revalidate" ∧
    headerValue (handle { method := Method.GET, path := "/ready" }) "Pragma" =
      some "no-cache" ∧
    headerValue (handle { method := Method.GET, path := "/ready" }) "Expires" =
      some "0" ∧
    headerValue (handle { method := Method.GET, path := "/ready" }) "Cache-Control" =
      headerValue (handle { method := Method.GET, path := "/health" }) "Cache-Control" := by
  refine ⟨rfl, rfl, rfl, rfl, rfl, rfl⟩

/-- C3: GET / returns status 200 with the hello JSON body and Content-Type
application/json, and the handler sets no Cache-Control, Pragma or Expires
header. -/
theorem c3_root_get_contract :
    (handle { method := Method.GET, path := "/" }).status = 200 ∧
    (handle { method := Method.GET, path := "/" }).body =
      [("message", "Hello from Flask on Kubernetes (Minikube)!")] ∧
    headerValue (handle { method := Method.GET, path := "/" }) "Content-Type" =
      some "application/json" ∧
    headerValue (handle { method := Method.GET, path := "/" }) "Cache-Control" = none ∧
    headerValue (handle { method := Method.GET, path := "/" }) "Pragma" = none ∧
    headerValue (handle { method := Method.GET, path := "/" }) "Expires" = none := by
  refine ⟨rfl, rfl, rfl, rfl, rfl, rfl⟩

/-- C4 counterexample: HEAD is not GET, yet HEAD /health returns 200, not
405, because Flask registers HEAD alongside each GET route. -/
theorem c4_counterexample_head_not_405 :
    Method.HEAD ≠ Method.GET ∧
    (handle { method := Method.HEAD, path := "/health" }).status = 200 ∧
    (handle { method := Method.HEAD, path := "/health" }).status ≠ 405 := by
  refine ⟨by decide, rfl, by decide⟩

/-- C4 (amended): every request to /health or /ready whose method is none of
GET, HEAD, OPTIONS (e.g. POST, PUT, DELETE) returns 405 Method Not Allowed. -/
theorem c4_non_get_head_options_405 (m : Method) (hg : m ≠ Method.GET)
    (hh : m ≠ Method.HEAD) (ho : m ≠ Method.OPTIONS) :
    (handle { method := m, path := "/health" }).status = 405 ∧
    (handle { method := m, path := "/ready" }).status = 405 := by
  cases m with
  | GET => exact absurd rfl hg
  | HEAD => exact absurd rfl hh
  | OPTIONS => exact absurd rfl ho
  | POST => exact ⟨rfl, rfl⟩
  | PUT => exact ⟨rfl, rfl⟩
  | DELETE => exact ⟨rfl, rfl⟩
  | PATCH => exact ⟨rfl, rfl⟩

/-- C4 witness: POST is none of GET, HEAD, OPTIONS, and POST to /health and
/ready both return 405. -/
theorem c4_non_get_head_options_405_witness :
    Method.POST ≠ Method.GET ∧ Method.POST ≠ Method.HEAD ∧
    Method.POST ≠ Method.OPTIONS ∧
    ((handle { method := Method.POST, path := "/health" }).status = 405 ∧
     (handle { method := Method.POST, path := "/ready" }).status = 405) :=
  ⟨by decide, by decide, by decide,
    c4_non_get_head_options_405 Method.POST (by decide) (by decide) (by decide)⟩

/-- C5 counterexample: /static/app.js is none of /, /health, /ready, yet
POST /static/app.js returns 405 and OPTIONS /static/app.js returns 200,
because `Flask(__name__)` auto-registers the `/static/<path:filename>`
route. -/
theorem c5_counterexample_static_route :
    ("/static/app.js" : String) ≠ "/" ∧
    ("/static/app.js" : String) ≠ "/health" ∧
    ("/static/app.js" : String) ≠ "/ready" ∧
    (handle { method := Method.POST, path := "/static/app.js" }).status = 405 ∧
    (handle { method := Method.POST, path := "/static/app.js" }).status ≠ 404 ∧
    (handle { method := Method.OPTIONS, path := "/static/app.js" }).status = 200 := by
  refine ⟨by decide, by decide, by decide, by decide, by decide, by decide⟩

/-- C5 (amended): every request whose path is none of /, /health, /ready
returns 404, unless the path matches the auto-registered static route
`/static/<filename>` and the method is neither GET nor HEAD; GET and HEAD
on static paths still return 404 because the repository ships no static
files. -/
theorem c5_unknown_path_404 (req : Request) (h1 : req.path ≠ "/")
    (h2 : req.path ≠ "/health") (h3 : req.path ≠ "/ready")
    (h4 : matchesPattern RoutePattern.staticFiles req.path = false ∨
          req.method = Method.GET ∨ req.method = Method.HEAD) :
    (handle req).status = 404 := by
  have b1 : matchesPattern (RoutePattern.exact "/") req.path = false := by
    simp [matchesPattern, beq_eq_false_iff_ne, Ne.symm h1]
  have b2 : matchesPattern (RoutePattern.exact "/health") req.path = false := by
    simp [matchesPattern, beq_eq_false_iff_ne, Ne.symm h2]
  have b3 : matchesPattern (RoutePattern.exact "/ready") req.path = false := by
    simp [matchesPattern, beq_eq_false_iff_ne, Ne.symm h3]
  cases hs : matchesPattern RoutePattern.staticFiles req.path with
  | false =>
    have e : findRule urlMap req.path = none := by
      simp [findRule, urlMap, addUrlRule, appBase, staticRule, List.find?,
        hs, b1, b2, b3]
    simp [handle, dispatch, e, notFound]
  | true =>
    have e : findRule urlMap req.path = some staticRule := by
      simp [findRule, urlMap, addUrlRule, appBase, staticRule, List.find?, hs]
    rcases h4 with h4 | hm | hm
    · rw [h4] at hs
      exact absurd hs (by simp)
    · simp [handle, dispatch, e, hm, staticRule, routeMethods, viewFunc, notFound]
    · simp [handle, dispatch, e, hm, staticRule, routeMethods, viewFunc,
        stripBody, notFound]

/-- C5 witness: GET /nope, a path off every route including the static one,
returns 404. -/
theorem c5_unknown_path_404_witness :
    ({ method := Method.GET, path := "/nope" } : Request).path ≠ "/" ∧
    ({ method := Method.GET, path := "/nope" } : Request).path ≠ "/health" ∧
    ({ method := Method.GET, path := "/nope" } : Request).path ≠ "/ready" ∧
    (matchesPattern RoutePattern.staticFiles
        ({ method := Method.GET, path := "/nope" } : Request).path = false ∨
      ({ method := Method.GET, path := "/nope" } : Request).method = Method.GET ∨
      ({ method := Method.GET, path := "/nope" } : Request).method = Method.HEAD) ∧
    (handle { method := Method.GET, path := "/nope" }).status = 404 :=
  ⟨by decide, by decide, by decide, Or.inl (by decide),
    c5_unknown_path_404 { method := Method.GET, path := "/nope" }
      (by decide) (by decide) (by decide) (Or.inl (by decide))⟩

/-- C6: for every N, the run of N repeated GET /health requests (and of N
repeated GET /ready requests) from the initial application state yields N
responses that are all identical — equal in status, body and headers to the
single-request response. The handlers are deterministic functions of method
and path. -/
theorem c6_repeated_calls_identical (n : Nat) :
    (runSeq appInit (List.replicate n { method := Method.GET, path := "/health" })).1 =
      List.replicate n (handle { method := Method.GET, path := "/health" }) ∧
    (runSeq appInit (List.replicate n { method := Method.GET, path := "/ready" })).1 =
      List.replicate n (handle { method := Method.GET, path := "/ready" }) := by
  induction n with
  | zero => exact ⟨rfl, rfl⟩
  | succ k ih =>
    obtain ⟨ih1, ih2⟩ := ih
    simp only [appInit, handle] at ih1 ih2 ⊢
    refine ⟨?_, ?_⟩ <;>
      simp [List.replicate_succ, runSeq, handleSt, ih1, ih2]

/-- C7: the JSON bodies of GET /, GET /health and GET /ready are pairwise
distinct. -/
theorem c7_bodies_pairwise_distinct :
    (handle { method := Method.GET, path := "/" }).body ≠
      (handle { method := Method.GET, path := "/health" }).body ∧
    (handle { method := Method.GET, path := "/" }).body ≠
      (handle { method := Method.GET, path := "/ready" }).body ∧
    (handle { method := Method.GET, path := "/health" }).body ≠
      (handle { method := Method.GET, path := "/ready" }).body := by
  refine ⟨by decide, by decide, by decide⟩

/-- C8: handling any sequence of requests leaves the application state (the
url map, the only module-level state) exactly as it was at startup: every
handler is side-effect-free. -/
theorem c8_handlers_side_effect_free (reqs : List Request) :
    (runSeq appInit reqs).2 = appInit := by
  induction reqs with
  | nil => rfl
  | cons q qs ih => simp [runSeq, handleSt, ih]

/-- C9: HEAD and OPTIONS requests to /health and /ready succeed with 200
(OPTIONS carrying an Allow header) rather than 405, because HEAD and OPTIONS
are auto-registered alongside each GET route. -/
theorem c9_head_options_succeed :
    (handle { method := Method.HEAD, path := "/health" }).status = 200 ∧
    (handle { method := Method.HEAD, path := "/ready" }).status = 200 ∧
    (handle { method := Method.OPTIONS, path := "/health" }).status = 200 ∧
    (handle { method := Method.OPTIONS, path := "/ready" }).status = 200 ∧
    headerValue (handle { method := Method.OPTIONS, path := "/health" }) "Allow" =
      some "GET, HEAD, OPTIONS" ∧
    headerValue (handle { method := Method.OPTIONS, path := "/ready" }) "Allow" =
      some "GET, HEAD, OPTIONS" := by
  refine ⟨rfl, rfl, rfl, rfl, rfl, rfl⟩

end FlaskApp
